import Mathlib

/-!
Shallow embedding of the Blueprint introspection engine
(`UnrealMCPBlueprintIntrospection.cpp`): graph/node/pin data model,
graph extraction, function/event-graph partitioning, component and
variable extraction, and the top-level `HandleGetBlueprintData` handler.
-/

/-- Pin direction (`EEdGraphPinDirection`): `EGPD_Input` or `EGPD_Output`. -/
inductive PinDir where
  | input
  | output
deriving DecidableEq, Repr

/-- The result of `LinkedPin->GetOwningNode()` / pin fields of a pin reachable
through `Pin->LinkedTo`.  `owningNodeGuid = none` models a null owning node. -/
structure LinkRef where
  owningNodeGuid : Option String
  pinId : String
  pinName : String
deriving DecidableEq, Repr

/-- Shallow embedding of `UEdGraphPin`.  `pinSubCategory = none` models
`NAME_None`; `pinSubCategoryObject = none` models an invalid weak object
reference (the code only reads its `GetName()`).  `linkedTo` entries are
`none` for null pin pointers inside the `LinkedTo` array. -/
structure GPin where
  pinId : String
  pinName : String
  pinCategory : String
  pinSubCategory : Option String
  pinSubCategoryObject : Option String
  direction : PinDir
  defaultValue : String
  isReference : Bool
  isConst : Bool
  linkedTo : List (Option LinkRef)
deriving DecidableEq, Repr

/-- The dynamic class of a node, as discriminated by the `Cast<...>` chain in
the source.  `UK2Node_CustomEvent` derives from `UK2Node_Event`, which the
embedding accounts for in `castIsEventNode`. -/
inductive NodeKind where
  | functionEntry
  | functionResult
  | event
  | callFunction
  | variableGet
  | variableSet
  | customEvent
  | other
deriving DecidableEq, Repr

/-- `Cast<UK2Node_Event>(Node)` succeeds for both `UK2Node_Event` and its
subclass `UK2Node_CustomEvent`. -/
def castIsEventNode (k : NodeKind) : Bool :=
  k = NodeKind.event || k = NodeKind.customEvent

/-- A local variable description attached to a `UK2Node_FunctionEntry`
(`FBPVariableDescription`, restricted to the fields the function extractor
reads). -/
structure LocalVarDesc where
  varName : String
  pinCategory : String
  pinSubCategory : Option String
deriving DecidableEq, Repr

/-- Shallow embedding of `UEdGraphNode` together with the subclass fields the
extractor reads after a successful cast: `memberName` models the
`EventReference`/`FunctionReference`/`VariableReference` member name when
`IsValid()`, `customFunctionName` models `UK2Node_CustomEvent::CustomFunctionName`,
`functionFlags`, `metaCategory`, `metaToolTip`, `metaCallInEditor` and
`localVariables` model the `UK2Node_FunctionEntry` fields. -/
structure GNode where
  nodeGuid : String
  className : String
  title : String
  posX : Int
  posY : Int
  kind : NodeKind
  memberName : Option String
  customFunctionName : String
  functionFlags : Nat
  metaCategory : String
  metaToolTip : String
  metaCallInEditor : Bool
  localVariables : List LocalVarDesc
  pins : List (Option GPin)
deriving DecidableEq, Repr

/-- Shallow embedding of `UEdGraph`.  `objId` models the object's address and
carries object identity (the pointer comparison `Graph == UberGraph`);
`nodes` entries are `none` for null node pointers. -/
structure EGraph where
  objId : Nat
  name : String
  nodes : List (Option GNode)
deriving DecidableEq, Repr

/-- `UEdGraphSchema_K2::PC_Exec`. -/
def PC_Exec : String := "exec"

/-- Emitted pin document (the JSON object built per pin in
`ExtractGraphData`). -/
structure PinDoc where
  id : String
  name : String
  ptype : String
  direction : String
  subType : Option String
  objectType : Option String
  defaultValue : Option String
  isReference : Bool
  isConst : Bool
  connectionCount : Nat
deriving DecidableEq, Repr

/-- Emitted node document. `categoryFields` collects the category-specific
string fields set by the classifier chain (`event_name`, `function_name`,
`variable_name`). -/
structure NodeDoc where
  id : String
  ntype : String
  title : String
  posX : Int
  posY : Int
  category : String
  categoryFields : List (String × String)
  pins : List PinDoc
deriving DecidableEq, Repr

/-- Emitted connection document. -/
structure ConnectionDoc where
  fromNode : String
  fromPin : String
  fromPinName : String
  toNode : String
  toPin : String
  toPinName : String
deriving DecidableEq, Repr

/-- Emitted graph document (`ExtractGraphData` output object). -/
structure GraphDoc where
  nodes : List NodeDoc
  connections : List ConnectionDoc
  nodeCount : Nat
  connectionCount : Nat
deriving DecidableEq, Repr

/-- Per-pin document construction inside the node loop of
`ExtractGraphData`: direction string, optional `sub_type` / `object_type` /
`default_value`, and `connection_count` from `Pin->LinkedTo.Num()`. -/
def pinDocOf (p : GPin) : PinDoc :=
  { id := p.pinId
    name := p.pinName
    ptype := p.pinCategory
    direction := if p.direction = PinDir.input then "input" else "output"
    subType := p.pinSubCategory
    objectType := p.pinSubCategoryObject
    defaultValue := if p.defaultValue.isEmpty then none else some p.defaultValue
    isReference := p.isReference
    isConst := p.isConst
    connectionCount := p.linkedTo.length }

/-- The `Cast<...>` classifier chain of `ExtractGraphData`, in source order.
The `UK2Node_CustomEvent` arm is listed after the `UK2Node_Event` arm exactly
as in the source; since `Cast<UK2Node_Event>` also succeeds on custom events,
that later arm is unreachable, as in the C++. -/
def nodeCategoryFields (n : GNode) : String × List (String × String) :=
  if castIsEventNode n.kind then
    ("event", match n.memberName with
      | some m => [("event_name", m)]
      | none => [])
  else if n.kind = NodeKind.callFunction then
    ("function_call", match n.memberName with
      | some m => [("function_name", m)]
      | none => [])
  else if n.kind = NodeKind.variableGet then
    ("variable_get", match n.memberName with
      | some m => [("variable_name", m)]
      | none => [])
  else if n.kind = NodeKind.variableSet then
    ("variable_set", match n.memberName with
      | some m => [("variable_name", m)]
      | none => [])
  else if n.kind = NodeKind.customEvent then
    ("custom_event", [("event_name", n.customFunctionName)])
  else
    ("other", [])

/-- Per-node document construction in `ExtractGraphData` (null pins are
skipped). -/
def nodeDocOf (n : GNode) : NodeDoc :=
  { id := n.nodeGuid
    ntype := n.className
    title := n.title
    posX := n.posX
    posY := n.posY
    category := (nodeCategoryFields n).1
    categoryFields := (nodeCategoryFields n).2
    pins := n.pins.filterMap (fun p? => p?.map pinDocOf) }

/-- Body of the `LinkedTo` loop: skip a null linked pin or a linked pin
whose owning node is null, otherwise emit one document oriented from the
current (output-direction) pin to the linked pin. -/
def mkConnDoc (fromGuid : String) (p : GPin) (l? : Option LinkRef) :
    Option ConnectionDoc :=
  match l? with
  | none => none
  | some l =>
    match l.owningNodeGuid with
    | none => none
    | some toGuid =>
      some { fromNode := fromGuid
             fromPin := p.pinId
             fromPinName := p.pinName
             toNode := toGuid
             toPin := l.pinId
             toPinName := l.pinName }

/-- Connection documents produced by one pin: only output-direction pins
contribute; for each non-null linked pin with a non-null owning node one
document is emitted, oriented from this pin to the linked pin. -/
def linkDocs (fromGuid : String) (p : GPin) : List ConnectionDoc :=
  if p.direction = PinDir.output then
    p.linkedTo.filterMap (mkConnDoc fromGuid p)
  else []

/-- The connection loop of `ExtractGraphData`: iterate nodes (skipping null
entries), then pins (skipping null entries), emitting `linkDocs` per pin. -/
def graphConnections (g : EGraph) : List ConnectionDoc :=
  g.nodes.flatMap (fun n? =>
    match n? with
    | none => []
    | some n =>
      n.pins.flatMap (fun p? =>
        match p? with
        | none => []
        | some p => linkDocs n.nodeGuid p))

/-- `ExtractGraphData`: nodes array (null entries skipped), connections
array, and the summary counters.  `node_count` is set from
`Graph->Nodes.Num()` — the length of the live node list — while
`connection_count` is set from the materialized connections array. -/
def extractGraphData (g : EGraph) : GraphDoc :=
  { nodes := g.nodes.filterMap (fun n? => n?.map nodeDocOf)
    connections := graphConnections g
    nodeCount := g.nodes.length
    connectionCount := (graphConnections g).length }

/-- All (owning-node guid, pin) pairs visited by the traversal: non-null
pins of non-null nodes, in traversal order. -/
def pinEntries (g : EGraph) : List (String × GPin) :=
  g.nodes.flatMap (fun n? =>
    match n? with
    | none => []
    | some n => n.pins.filterMap (fun p? => p?.map (fun p => (n.nodeGuid, p))))

/-- Node ids appearing in the emitted nodes array. -/
def nodeIds (g : EGraph) : List String :=
  (extractGraphData g).nodes.map (fun d => d.id)

/-! ### Variable extraction (`ExtractVariables`) -/

/-- `EPinContainerType`. -/
inductive EPinContainerType where
  | cNone
  | cArray
  | cSet
  | cMap
deriving DecidableEq, Repr

/-- `ELifetimeCondition` (engine enumeration; the four values the source's
switch does not name fall to its `default` arm). -/
inductive ELifetimeCondition where
  | condNone
  | condInitialOnly
  | condOwnerOnly
  | condSkipOwner
  | condSimulatedOnly
  | condAutonomousOnly
  | condSimulatedOrPhysics
  | condInitialOrOwner
  | condCustom
  | condReplayOrOwner
  | condReplayOnly
  | condSimulatedOnlyNoReplay
  | condSimulatedOrPhysicsNoReplay
  | condSkipReplay
  | condDynamic
  | condNever
  | condNetGroup
deriving DecidableEq, Repr

/-- All `ELifetimeCondition` values. -/
def allLifetimeConditions : List ELifetimeCondition :=
  [.condNone, .condInitialOnly, .condOwnerOnly, .condSkipOwner, .condSimulatedOnly,
   .condAutonomousOnly, .condSimulatedOrPhysics, .condInitialOrOwner, .condCustom,
   .condReplayOrOwner, .condReplayOnly, .condSimulatedOnlyNoReplay,
   .condSimulatedOrPhysicsNoReplay, .condSkipReplay, .condDynamic, .condNever,
   .condNetGroup]

/-- The `switch (VarDesc.ReplicationCondition)` table of `ExtractVariables`:
the 13 `case` arms in source order; every other value takes the `default`
arm, producing `"None"`. -/
def repConditionName : ELifetimeCondition → String
  | .condInitialOnly => "InitialOnly"
  | .condOwnerOnly => "OwnerOnly"
  | .condSkipOwner => "SkipOwner"
  | .condSimulatedOnly => "SimulatedOnly"
  | .condAutonomousOnly => "AutonomousOnly"
  | .condSimulatedOrPhysics => "SimulatedOrPhysics"
  | .condInitialOrOwner => "InitialOrOwner"
  | .condCustom => "Custom"
  | .condReplayOrOwner => "ReplayOrOwner"
  | .condReplayOnly => "ReplayOnly"
  | .condSimulatedOnlyNoReplay => "SimulatedOnlyNoReplay"
  | .condSimulatedOrPhysicsNoReplay => "SimulatedOrPhysicsNoReplay"
  | .condSkipReplay => "SkipReplay"
  | _ => "None"

/-- `EPropertyFlags` bits read by the extractor. -/
def CPF_Edit : Nat := 0x1

def CPF_BlueprintVisible : Nat := 0x4

def CPF_BlueprintReadOnly : Nat := 0x10

def CPF_Net : Nat := 0x20

def CPF_Transient : Nat := 0x2000

def CPF_Config : Nat := 0x4000

def CPF_ExposeOnSpawn : Nat := 0x1000000000000

/-- Shallow embedding of `FBPVariableDescription` (the fields
`ExtractVariables` reads).  `subCategoryObject` is `(GetName, GetPathName)`
of `PinSubCategoryObject` when the weak reference `IsValid()`;
`repNotifyFunc = none` models `NAME_None`. -/
structure VarDesc where
  varName : String
  pinCategory : String
  pinSubCategory : String
  containerType : EPinContainerType
  subCategoryObject : Option (String × String)
  isReference : Bool
  isConst : Bool
  isWeakPointer : Bool
  category : String
  friendlyName : String
  metaDataArray : List (String × String)
  propertyFlags : Nat
  repNotifyFunc : Option String
  replicationCondition : ELifetimeCondition
  defaultValue : String
  varGuid : String
deriving DecidableEq, Repr

/-- Emitted variable document; the `type_info` sub-object's fields are
inlined with a `ti` name marker. -/
structure VariableDoc where
  name : String
  tiCategory : String
  tiSubCategory : String
  tiContainerType : String
  tiObjectType : Option String
  tiObjectPath : Option String
  tiIsReference : Bool
  tiIsConst : Bool
  tiIsWeakPointer : Bool
  typeLegacy : String
  category : String
  friendlyName : String
  metadata : Option (List (String × String))
  isExposed : Bool
  isBlueprintReadOnly : Bool
  isEditable : Bool
  isBlueprintVisible : Bool
  isTransient : Bool
  isConfig : Bool
  replication : String
  repNotifyFunction : Option String
  replicationCondition : Option String
  defaultValue : String
  guid : String
deriving DecidableEq, Repr

/-- Per-variable body of the `ExtractVariables` loop. -/
def extractVariable (v : VarDesc) : VariableDoc :=
  { name := v.varName
    tiCategory := v.pinCategory
    tiSubCategory := v.pinSubCategory
    tiContainerType :=
      if v.containerType = EPinContainerType.cArray then "array"
      else if v.containerType = EPinContainerType.cSet then "set"
      else if v.containerType = EPinContainerType.cMap then "map"
      else "none"
    tiObjectType := v.subCategoryObject.map (fun o => o.1)
    tiObjectPath := v.subCategoryObject.map (fun o => o.2)
    tiIsReference := v.isReference
    tiIsConst := v.isConst
    tiIsWeakPointer := v.isWeakPointer
    typeLegacy :=
      match v.subCategoryObject with
      | some o => v.pinCategory ++ ":" ++ o.1
      | none => v.pinCategory
    category := if v.category.isEmpty then "" else v.category
    friendlyName := v.friendlyName
    metadata := if v.metaDataArray.length > 0 then some v.metaDataArray else none
    isExposed := v.propertyFlags &&& CPF_ExposeOnSpawn != 0
    isBlueprintReadOnly := v.propertyFlags &&& CPF_BlueprintReadOnly != 0
    isEditable := v.propertyFlags &&& CPF_Edit != 0
    isBlueprintVisible := v.propertyFlags &&& CPF_BlueprintVisible != 0
    isTransient := v.propertyFlags &&& CPF_Transient != 0
    isConfig := v.propertyFlags &&& CPF_Config != 0
    replication :=
      if v.propertyFlags &&& CPF_Net != 0 then
        match v.repNotifyFunc with
        | some _ => "RepNotify"
        | none => "Replicated"
      else "None"
    repNotifyFunction :=
      if v.propertyFlags &&& CPF_Net != 0 then v.repNotifyFunc else none
    replicationCondition :=
      if v.propertyFlags &&& CPF_Net != 0 then
        some (repConditionName v.replicationCondition)
      else none
    defaultValue := v.defaultValue
    guid := v.varGuid }

/-- `ExtractVariables`: one document per declared variable, in declaration
order. -/
def extractVariables (vars : List VarDesc) : List VariableDoc :=
  vars.map extractVariable

/-! ### Component extraction (`ExtractComponents`) -/

/-- A component template (`Node->ComponentTemplate`); only the fields the
modelled claims read.  The capability-gated enrichment blocks (transform,
mesh, light) carry no claim and are not modelled. -/
structure CompTemplate where
  className : String
deriving DecidableEq, Repr

/-- Shallow embedding of `USCS_Node`: `componentTemplate = none` models a
null template pointer; `parentComponentOrVariableName = none` models
`NAME_None`. -/
structure SCSNode where
  variableName : String
  componentTemplate : Option CompTemplate
  parentComponentOrVariableName : Option String
deriving DecidableEq, Repr

/-- Emitted component document (the fields the modelled claims read). -/
structure ComponentDoc where
  name : String
  ctype : String
  parentComponent : String
deriving DecidableEq, Repr

/-- Body of the `ExtractComponents` loop: skip null nodes and nodes with a
null template; emit name, type, and the parent back-reference (the sentinel
`"None"` when the parent name is `NAME_None`). -/
def extractComponentsFrom (nodes : List (Option SCSNode)) : List ComponentDoc :=
  nodes.filterMap (fun n? =>
    match n? with
    | none => none
    | some n =>
      match n.componentTemplate with
      | none => none
      | some t =>
        some { name := n.variableName
               ctype := t.className
               parentComponent :=
                 match n.parentComponentOrVariableName with
                 | some p => p
                 | none => "None" })

/-! ### Function extraction (`ExtractFunctions`) and the blueprint model -/

/-- `EFunctionFlags` bits read by the extractor. -/
def FUNC_Private : Nat := 0x40000

def FUNC_Protected : Nat := 0x80000

/-- Emitted function parameter document. -/
structure ParamDoc where
  name : String
  ptype : String
  subType : Option String
  objectType : Option String
  defaultValue : Option String
  isReference : Bool
  isConst : Bool
deriving DecidableEq, Repr

/-- Emitted local-variable document. -/
structure LocalVarDoc where
  name : String
  ltype : String
  subType : Option String
deriving DecidableEq, Repr

/-- Emitted function document. -/
structure FunctionDoc where
  name : String
  category : String
  description : String
  isPure : Bool
  accessSpecifier : String
  inputs : List ParamDoc
  outputs : List ParamDoc
  localVariables : List LocalVarDoc
  graph : GraphDoc
deriving DecidableEq, Repr

/-- Input-parameter document built from an output pin of the entry node
(includes `default_value` when non-empty). -/
def inputParamDocOf (p : GPin) : ParamDoc :=
  { name := p.pinName
    ptype := p.pinCategory
    subType := p.pinSubCategory
    objectType := p.pinSubCategoryObject
    defaultValue := if p.defaultValue.isEmpty then none else some p.defaultValue
    isReference := p.isReference
    isConst := p.isConst }

/-- Output-parameter document built from an input pin of the result node
(the source emits no `default_value` key for outputs). -/
def outputParamDocOf (p : GPin) : ParamDoc :=
  { name := p.pinName
    ptype := p.pinCategory
    subType := p.pinSubCategory
    objectType := p.pinSubCategoryObject
    defaultValue := none
    isReference := p.isReference
    isConst := p.isConst }

/-- Local-variable document from an entry node's `LocalVariables` entry. -/
def localVarDocOf (lv : LocalVarDesc) : LocalVarDoc :=
  { name := lv.varName
    ltype := lv.pinCategory
    subType := lv.pinSubCategory }

/-- The entry-node search loop: the first node for which
`Cast<UK2Node_FunctionEntry>` succeeds (null node pointers cast to null). -/
def findEntryNode (g : EGraph) : Option GNode :=
  g.nodes.findSome? (fun n? =>
    match n? with
    | none => none
    | some n => if n.kind = NodeKind.functionEntry then some n else none)

/-- The result-node search loop: the first node for which
`Cast<UK2Node_FunctionResult>` succeeds (the loop breaks after it). -/
def findResultNode (g : EGraph) : Option GNode :=
  g.nodes.findSome? (fun n? =>
    match n? with
    | none => none
    | some n => if n.kind = NodeKind.functionResult then some n else none)

/-- The per-graph body of `ExtractFunctions` once an entry node was found:
metadata, access specifier, inputs from the entry node's output-direction
non-exec pins, outputs from the first result node's input-direction non-exec
pins, local variables from the entry node, and the full graph data. -/
def functionDocOf (g : EGraph) (e : GNode) : FunctionDoc :=
  { name := g.name
    category := e.metaCategory
    description := e.metaToolTip
    isPure := e.metaCallInEditor
    accessSpecifier :=
      if e.functionFlags &&& FUNC_Private != 0 then "private"
      else if e.functionFlags &&& FUNC_Protected != 0 then "protected"
      else "public"
    inputs := e.pins.filterMap (fun p? =>
      match p? with
      | none => none
      | some p =>
        if p.direction = PinDir.output && p.pinCategory != PC_Exec then
          some (inputParamDocOf p)
        else none)
    outputs :=
      match findResultNode g with
      | none => []
      | some r => r.pins.filterMap (fun p? =>
          match p? with
          | none => none
          | some p =>
            if p.direction = PinDir.input && p.pinCategory != PC_Exec then
              some (outputParamDocOf p)
            else none)
    localVariables := e.localVariables.map localVarDocOf
    graph := extractGraphData g }

/-- `EBlueprintType`. -/
inductive BlueprintType where
  | bpNormal
  | bpConst
  | bpMacroLibrary
  | bpInterface
  | bpLevelScript
  | bpFunctionLibrary
deriving DecidableEq, Repr

/-- The `switch (Blueprint->BlueprintType)` of `ExtractBlueprintInfo`. -/
def blueprintTypeName : BlueprintType → String
  | .bpNormal => "Normal"
  | .bpConst => "Const"
  | .bpMacroLibrary => "MacroLibrary"
  | .bpInterface => "Interface"
  | .bpLevelScript => "LevelScript"
  | .bpFunctionLibrary => "FunctionLibrary"

/-- Shallow embedding of `UBlueprint` (the fields the handler reads).
`simpleConstructionScript = none` models a null SCS pointer; when present it
carries `GetAllNodes()`.  `otherGraphs` stands for the further graph lists
(macro, delegate, interface graphs and nested subgraphs) that
`GetAllGraphs` also returns. -/
structure Blueprint where
  name : String
  pathName : String
  parentClass : Option String
  blueprintType : BlueprintType
  description : String
  category : String
  package : Option String
  ubergraphPages : List (Option EGraph)
  functionGraphs : List (Option EGraph)
  otherGraphs : List (Option EGraph)
  simpleConstructionScript : Option (List (Option SCSNode))
  newVariables : List VarDesc
deriving DecidableEq, Repr

/-- `Blueprint->GetAllGraphs(AllGraphs)` (engine-provided): every graph
owned by the blueprint; ubergraph pages, function graphs, and the remaining
graph lists. -/
def allGraphs (bp : Blueprint) : List (Option EGraph) :=
  bp.ubergraphPages ++ bp.functionGraphs ++ bp.otherGraphs

/-- The ubergraph-membership test of `ExtractFunctions`: the pointer
comparison `Graph == UberGraph` over `Blueprint->UbergraphPages`, i.e.
object identity, not name. -/
def isEventGraphOf (bp : Blueprint) (g : EGraph) : Bool :=
  bp.ubergraphPages.any (fun ug? =>
    match ug? with
    | some ug => ug.objId == g.objId
    | none => false)

/-- The graphs `ExtractFunctions` selects, paired with their entry node:
non-null graphs that are not ubergraph pages and contain a function entry
node. -/
def functionGraphsSelected (bp : Blueprint) : List (EGraph × GNode) :=
  (allGraphs bp).filterMap (fun g? =>
    match g? with
    | none => none
    | some g =>
      if isEventGraphOf bp g then none
      else
        match findEntryNode g with
        | none => none
        | some e => some (g, e))

/-- `ExtractFunctions`. -/
def extractFunctions (bp : Blueprint) : List FunctionDoc :=
  (functionGraphsSelected bp).map (fun ge => functionDocOf ge.1 ge.2)

/-- `ExtractComponents` (returns the empty array when the SCS pointer is
null). -/
def extractComponents (bp : Blueprint) : List ComponentDoc :=
  match bp.simpleConstructionScript with
  | none => []
  | some nodes => extractComponentsFrom nodes

/-! ### Event graphs, construction script and the top-level handler -/

/-- One entry of the emitted `event_graphs` array.  The source guards
`SetObjectField("graph", ...)` behind `GraphData.IsValid()`, which always
holds for a freshly created shared object, so the graph payload is always
present. -/
structure EventGraphEntry where
  name : String
  etype : String
  graphData : GraphDoc
deriving DecidableEq, Repr

/-- The construction-script search loop: the first non-null function graph
whose name is exactly `UserConstructionScript` (the loop breaks at the first
match). -/
def findUCSGraph (fgs : List (Option EGraph)) : Option EGraph :=
  fgs.findSome? (fun g? =>
    match g? with
    | none => none
    | some g => if g.name == "UserConstructionScript" then some g else none)

/-- The construction-script block of `HandleGetBlueprintData`: only entered
when `Blueprint->SimpleConstructionScript` is non-null; appends at most one
entry. -/
def constructionScriptEntries (bp : Blueprint) : List EventGraphEntry :=
  match bp.simpleConstructionScript with
  | none => []
  | some _ =>
    match findUCSGraph bp.functionGraphs with
    | none => []
    | some g =>
      [{ name := "UserConstructionScript"
         etype := "construction_script"
         graphData := extractGraphData g }]

/-- The main event-graph loop of `HandleGetBlueprintData`: one
`event_graph` entry per non-null ubergraph page. -/
def uberGraphEntries (bp : Blueprint) : List EventGraphEntry :=
  bp.ubergraphPages.filterMap (fun g? =>
    g?.map (fun g =>
      { name := g.name
        etype := "event_graph"
        graphData := extractGraphData g }))

/-- The full `event_graphs` array: the ubergraph-page entries, then the
construction-script entry when present. -/
def eventGraphsArray (bp : Blueprint) : List EventGraphEntry :=
  uberGraphEntries bp ++ constructionScriptEntries bp

/-- `ExtractBlueprintInfo` output. -/
structure BlueprintInfo where
  name : String
  path : String
  parentClass : String
  blueprintType : String
  description : String
  category : String
  package : Option String
deriving DecidableEq, Repr

/-- `ExtractBlueprintInfo`. -/
def extractBlueprintInfo (bp : Blueprint) : BlueprintInfo :=
  { name := bp.name
    path := bp.pathName
    parentClass :=
      match bp.parentClass with
      | some p => p
      | none => "None"
    blueprintType := blueprintTypeName bp.blueprintType
    description := bp.description
    category := bp.category
    package := bp.package }

/-- The successful `Result` object of `HandleGetBlueprintData`. -/
structure BlueprintDocument where
  blueprintInfo : BlueprintInfo
  components : List ComponentDoc
  variableDocs : List VariableDoc
  functions : List FunctionDoc
  eventGraphs : List EventGraphEntry
deriving DecidableEq, Repr

/-- Assembly of the success document, in the source's field order (the
`variableDocs` field carries the emitted `variables` array). -/
def assembleDoc (bp : Blueprint) : BlueprintDocument :=
  { blueprintInfo := extractBlueprintInfo bp
    components := extractComponents bp
    variableDocs := extractVariables bp.newVariables
    functions := extractFunctions bp
    eventGraphs := eventGraphsArray bp }

/-- A handler response: either the error object or the success document. -/
inductive BPResponse where
  | errorResp (message : String)
  | okResp (doc : BlueprintDocument)
deriving DecidableEq, Repr

/-- Modelled from the spec: `CreateErrorResponse` (defined in
`UnrealMCPCommonUtils`, which is not part of the sources) produces
`\x7b "success": false, "message": <msg> \x7d`; `responseKeys` lists the JSON
keys each response shape carries (`success` plus `message` for the error
object; `success`, `blueprint_info`, `components`, `variables`, `functions`
and `event_graphs` for the success object). -/
def responseKeys : BPResponse → List String
  | .errorResp _ => ["success", "message"]
  | .okResp _ =>
      ["success", "blueprint_info", "components", "variables", "functions",
       "event_graphs"]

/-- Modelled from the spec: the `success` boolean of a response — `false`
for `CreateErrorResponse` output, `true` for the assembled document. -/
def responseSuccess : BPResponse → Bool
  | .errorResp _ => false
  | .okResp _ => true

/-- A JSON parameter value: a string field or a field of any other shape. -/
inductive PVal where
  | pstr (s : String)
  | pother
deriving DecidableEq, Repr

/-- Modelled from the spec: `FJsonObject::TryGetStringField` (engine code)
succeeds exactly when the object has a field of the given name holding a
string. -/
def tryGetStringField (params : List (String × PVal)) (key : String) : Option String :=
  params.findSome? (fun kv =>
    match kv with
    | (k, PVal.pstr s) => if k == key then some s else none
    | _ => none)

/-- `HandleGetBlueprintData`.  The blueprint lookup
(`FUnrealMCPCommonUtils::FindBlueprint`, not part of the sources) is the
injected collaborator `find`.  The second component instruments whether the
lookup collaborator was invoked. -/
def handleGetBlueprintData (find : String → Option Blueprint)
    (params : List (String × PVal)) : BPResponse × Bool :=
  match tryGetStringField params "blueprint_name" with
  | none => (BPResponse.errorResp "Missing 'blueprint_name' parameter", false)
  | some name =>
    match find name with
    | none => (BPResponse.errorResp ("Blueprint not found: " ++ name), true)
    | some bp => (BPResponse.okResp (assembleDoc bp), true)

/-- Whether a `LinkedTo` entry is a non-null reference to a pin with id `qp`
owned by a non-null node — i.e. an entry the connection loop turns into a
document ending at pin `qp`. -/
def isRefTo (qp : String) (l? : Option LinkRef) : Bool :=
  match l? with
  | some l => l.pinId == qp && l.owningNodeGuid.isSome
  | none => false

/-- Whether a connection document records the wire between pins `op` and
`qp`, in either orientation. -/
def wireDocMatch (op qp : String) (c : ConnectionDoc) : Bool :=
  (c.fromPin == op && c.toPin == qp) || (c.fromPin == qp && c.toPin == op)

/-- Host-model well-formedness of a graph's link storage: every non-null
link reference with a non-null owning node names a node that appears
(non-null) in the graph's own node list.  The engine guarantees this for
live graphs; the extractor itself only checks the owning node for null. -/
def linksResolve (g : EGraph) : Bool :=
  (pinEntries g).all (fun e =>
    e.2.linkedTo.all (fun l? =>
      match l? with
      | none => true
      | some l =>
        match l.owningNodeGuid with
        | none => true
        | some gg => decide (gg ∈ nodeIds g)))

/-! ### Concrete fixtures used by witnesses and counterexamples -/

/-- A pin fixture. -/
def mkPin (pid pname : String) (dir : PinDir) (cat : String)
    (links : List (Option LinkRef)) : GPin :=
  { pinId := pid
    pinName := pname
    pinCategory := cat
    pinSubCategory := none
    pinSubCategoryObject := none
    direction := dir
    defaultValue := ""
    isReference := false
    isConst := false
    linkedTo := links }

/-- A node fixture. -/
def mkNode (guid : String) (k : NodeKind) (ps : List (Option GPin)) : GNode :=
  { nodeGuid := guid
    className := "K2Node"
    title := "T"
    posX := 0
    posY := 0
    kind := k
    memberName := none
    customFunctionName := ""
    functionFlags := 0
    metaCategory := ""
    metaToolTip := ""
    metaCallInEditor := false
    localVariables := []
    pins := ps }

/-- A two-node graph with a single wire: node `A`'s output pin `p1` links to
node `B`'s input pin `p2`, and the model mirrors the link on both
endpoints. -/
def wireGraph : EGraph :=
  ⟨7, "WireG",
   [some (mkNode "A" NodeKind.other
      [some (mkPin "p1" "Out" PinDir.output "exec"
        [some ⟨some "B", "p2", "In"⟩])]),
    some (mkNode "B" NodeKind.other
      [some (mkPin "p2" "In" PinDir.input "exec"
        [some ⟨some "A", "p1", "Out"⟩])])]⟩

/-- Entry-node fixture: two data output pins, one exec output pin, no
locals — a function signature with two inputs. -/
def entryNodeEx : GNode :=
  mkNode "E" NodeKind.functionEntry
    [some (mkPin "e0" "then" PinDir.output "exec" []),
     some (mkPin "e1" "InA" PinDir.output "int" []),
     some (mkPin "e2" "InB" PinDir.output "bool" [])]

/-- Result-node fixture: one data input pin and one exec input pin — a
function signature with one output. -/
def resultNodeEx : GNode :=
  mkNode "R" NodeKind.functionResult
    [some (mkPin "r0" "execute" PinDir.input "exec" []),
     some (mkPin "r1" "RetVal" PinDir.input "int" [])]

/-- A function graph fixture with one entry node and one result node. -/
def funcGraph : EGraph :=
  ⟨21, "MyFunction", [some entryNodeEx, some resultNodeEx]⟩

/-- The `UserConstructionScript` function graph fixture: a user-editable
function graph carrying a function entry node. -/
def ucsGraph : EGraph :=
  ⟨31, "UserConstructionScript",
   [some (mkNode "U" NodeKind.functionEntry
      [some (mkPin "u0" "then" PinDir.output "exec" [])])]⟩

/-- A blueprint fixture whose SCS is present and whose function graphs hold
the construction script `ucsGraph` and the user function `funcGraph`. -/
def exampleBlueprint : Blueprint :=
  { name := "BP_Example"
    pathName := "/Game/BP_Example.BP_Example"
    parentClass := some "Actor"
    blueprintType := BlueprintType.bpNormal
    description := ""
    category := ""
    package := some "/Game/BP_Example"
    ubergraphPages := [some ⟨41, "EventGraph", []⟩]
    functionGraphs := [some ucsGraph, some funcGraph]
    otherGraphs := []
    simpleConstructionScript := some []
    newVariables := [] }

/-- A variable fixture: replicated (`CPF_Net` set) with a notify function
and an `OwnerOnly` condition. -/
def exampleRepVar : VarDesc :=
  { varName := "Health"
    pinCategory := "real"
    pinSubCategory := "double"
    containerType := EPinContainerType.cNone
    subCategoryObject := none
    isReference := false
    isConst := false
    isWeakPointer := false
    category := "Default"
    friendlyName := "Health"
    metaDataArray := []
    propertyFlags := CPF_Net
    repNotifyFunc := some "OnRep_Health"
    replicationCondition := ELifetimeCondition.condOwnerOnly
    defaultValue := "100"
    varGuid := "guid-1" }

/-- An SCS fixture whose only component names a parent that no component in
the document has. -/
def danglingParentSCS : List (Option SCSNode) :=
  [some { variableName := "Child"
          componentTemplate := some { className := "SceneComponent" }
          parentComponentOrVariableName := some "Ghost" }]

/-! ## Theorems -/

lemma length_filterMap_map_of_all_some {α β : Type} (f : α → β)
    (l : List (Option α)) (h : ∀ a? ∈ l, a?.isSome) :
    (l.filterMap (fun a? => a?.map f)).length = l.length := by
  induction l with
  | nil => rfl
  | cons a? t ih =>
    cases a? with
    | none => exact absurd (h none (List.mem_cons_self _ _)) (by simp)
    | some a =>
      have ht := ih (fun x hx => h x (List.mem_cons_of_mem _ hx))
      simp [List.filterMap_cons, ht]

/-- C1 counterexample: for a graph whose live node list holds a single null
entry, the emitted `node_count` is 1 while the emitted nodes array is empty,
so `node_count` differs from the length of the nodes array. -/
theorem graphDoc_nodeCount_mismatch_cex :
    (extractGraphData ⟨0, "G", [none]⟩).nodeCount = 1 ∧
    (extractGraphData ⟨0, "G", [none]⟩).nodes.length = 0 ∧
    ¬ ((extractGraphData ⟨0, "G", [none]⟩).nodeCount =
        (extractGraphData ⟨0, "G", [none]⟩).nodes.length) := by
  refine ⟨rfl, rfl, ?_⟩
  decide

/-- C1 amended: `connection_count` always equals the length of the emitted
connections array; `node_count` equals the length of the live node list, so
it equals the length of the emitted nodes array exactly when the live list
has no null entries (null entries are skipped from the array but still
counted). -/
theorem graphDoc_summary_counts (g : EGraph) :
    (extractGraphData g).connectionCount = (extractGraphData g).connections.length ∧
    (extractGraphData g).nodeCount = g.nodes.length ∧
    ((∀ n? ∈ g.nodes, n?.isSome) →
      (extractGraphData g).nodeCount = (extractGraphData g).nodes.length) := by
  refine ⟨rfl, rfl, fun h => ?_⟩
  show g.nodes.length = (g.nodes.filterMap (fun n? => n?.map nodeDocOf)).length
  rw [length_filterMap_map_of_all_some nodeDocOf g.nodes h]

/-- C1 witness: the summary-count theorem applied to a concrete two-node
graph with no null entries. -/
theorem graphDoc_summary_counts_witness :
    (extractGraphData ⟨1, "W",
      [some { nodeGuid := "n1", className := "K2Node", title := "T",
              posX := 0, posY := 0, kind := NodeKind.other, memberName := none,
              customFunctionName := "", functionFlags := 0, metaCategory := "",
              metaToolTip := "", metaCallInEditor := false, localVariables := [],
              pins := [] }]⟩).nodeCount =
    (extractGraphData ⟨1, "W",
      [some { nodeGuid := "n1", className := "K2Node", title := "T",
              posX := 0, posY := 0, kind := NodeKind.other, memberName := none,
              customFunctionName := "", functionFlags := 0, metaCategory := "",
              metaToolTip := "", metaCallInEditor := false, localVariables := [],
              pins := [] }]⟩).nodes.length :=
  (graphDoc_summary_counts _).2.2 (by decide)

lemma pins_flatMap_eq (gd : String) (ps : List (Option GPin)) :
    ps.flatMap (fun p? =>
      match p? with
      | none => []
      | some p => linkDocs gd p)
    = (ps.filterMap (fun p? => p?.map (fun p => (gd, p)))).flatMap
        (fun e => linkDocs e.1 e.2) := by
  induction ps with
  | nil => rfl
  | cons p? t ih =>
    cases p? with
    | none => simpa using ih
    | some p =>
      rw [List.flatMap_cons, List.filterMap_cons]
      simp only [Option.map_some']
      rw [List.flatMap_cons, ih]

lemma graphConnections_eq (g : EGraph) :
    graphConnections g
      = (pinEntries g).flatMap (fun e => linkDocs e.1 e.2) := by
  obtain ⟨oid, nm, ns⟩ := g
  simp only [graphConnections, pinEntries]
  induction ns with
  | nil => rfl
  | cons n? t ih =>
    cases n? with
    | none => simpa using ih
    | some n =>
      simp only [List.flatMap_cons, List.flatMap_append]
      rw [ih, pins_flatMap_eq]

lemma mem_linkDocs {gd : String} {p : GPin} {d : ConnectionDoc}
    (h : d ∈ linkDocs gd p) :
    d.fromNode = gd ∧ d.fromPin = p.pinId ∧
    ∃ l : LinkRef, some l ∈ p.linkedTo ∧
      l.owningNodeGuid = some d.toNode ∧ l.pinId = d.toPin := by
  unfold linkDocs at h
  split at h
  · rw [List.mem_filterMap] at h
    obtain ⟨l?, hl, hf⟩ := h
    cases l? with
    | none => simp [mkConnDoc] at hf
    | some l =>
      cases hg : l.owningNodeGuid with
      | none => simp [mkConnDoc, hg] at hf
      | some gg =>
        simp only [mkConnDoc, hg] at hf
        rw [Option.some_inj] at hf
        subst hf
        exact ⟨rfl, rfl, l, hl, hg, rfl⟩
  · simp at h

lemma countP_filterMap_mkConnDoc (gd : String) (p : GPin) (qp : String)
    (hne : p.pinId ≠ qp) (L : List (Option LinkRef)) :
    (L.filterMap (mkConnDoc gd p)).countP (wireDocMatch p.pinId qp)
      = L.countP (isRefTo qp) := by
  induction L with
  | nil => rfl
  | cons l? t ih =>
    cases l? with
    | none =>
      simp only [List.filterMap_cons, mkConnDoc, List.countP_cons, isRefTo]
      simpa using ih
    | some l =>
      cases hg : l.owningNodeGuid with
      | none =>
        simp only [List.filterMap_cons, mkConnDoc, hg, List.countP_cons, isRefTo]
        simpa [hg] using ih
      | some gg =>
        simp only [List.filterMap_cons, mkConnDoc, hg]
        rw [List.countP_cons, List.countP_cons, ih]
        congr 1
        simp [wireDocMatch, isRefTo, hg, beq_iff_eq, hne]

lemma countP_linkDocs_zero (gd : String) (p : GPin) (op qp : String)
    (h1 : p.pinId ≠ op) (h2 : p.pinId ≠ qp) :
    (linkDocs gd p).countP (wireDocMatch op qp) = 0 := by
  rw [List.countP_eq_zero]
  intro d hd
  obtain ⟨-, hfp, -⟩ := mem_linkDocs hd
  simp [wireDocMatch, hfp, beq_iff_eq, h1, h2]

lemma linkDocs_input (gd : String) (p : GPin)
    (h : p.direction = PinDir.input) : linkDocs gd p = [] := by
  unfold linkDocs
  rw [h]
  simp

lemma wire_count_flatMap (op qp : String) (hne : op ≠ qp)
    (L : List (String × GPin))
    (H2 : ∀ e ∈ L, e.2.pinId = op →
      e.2.direction = PinDir.output ∧ e.2.linkedTo.countP (isRefTo qp) = 1)
    (H3 : ∀ e ∈ L, e.2.pinId = qp → e.2.direction = PinDir.input) :
    (L.flatMap (fun e => linkDocs e.1 e.2)).countP (wireDocMatch op qp)
      = L.countP (fun e => e.2.pinId == op) := by
  induction L with
  | nil => rfl
  | cons e t ih =>
    have hing : (linkDocs e.1 e.2).countP (wireDocMatch op qp)
        = if e.2.pinId == op then 1 else 0 := by
      by_cases hop : e.2.pinId = op
      · obtain ⟨hdir, hcnt⟩ := H2 e (List.mem_cons_self _ _) hop
        have hfm := countP_filterMap_mkConnDoc e.1 e.2 qp
          (by rw [hop]; exact hne) e.2.linkedTo
        rw [hop] at hfm
        have hld : linkDocs e.1 e.2 = e.2.linkedTo.filterMap (mkConnDoc e.1 e.2) := by
          unfold linkDocs
          rw [hdir]
          simp
        rw [hld, hfm, hcnt]
        simp [beq_iff_eq, hop]
      · by_cases hqp : e.2.pinId = qp
        · rw [linkDocs_input e.1 e.2 (H3 e (List.mem_cons_self _ _) hqp)]
          simp [beq_iff_eq, hop]
        · rw [countP_linkDocs_zero e.1 e.2 op qp hop hqp]
          simp [beq_iff_eq, hop]
    rw [List.flatMap_cons, List.countP_append, List.countP_cons,
        ih (fun x hx => H2 x (List.mem_cons_of_mem _ hx))
           (fun x hx => H3 x (List.mem_cons_of_mem _ hx)),
        hing]
    exact Nat.add_comm _ _

lemma reverse_orientation_zero (op qp : String) (L : List (String × GPin))
    (H3 : ∀ e ∈ L, e.2.pinId = qp → e.2.direction = PinDir.input) :
    (L.flatMap (fun e => linkDocs e.1 e.2)).countP
      (fun c => c.fromPin == qp && c.toPin == op) = 0 := by
  rw [List.countP_eq_zero]
  intro d hd
  rw [List.mem_flatMap] at hd
  obtain ⟨e, he, hde⟩ := hd
  by_cases hqp : e.2.pinId = qp
  · rw [linkDocs_input e.1 e.2 (H3 e he hqp)] at hde
    simp at hde
  · obtain ⟨-, hfp, -⟩ := mem_linkDocs hde
    simp [hfp, beq_iff_eq, hqp]

/-- C3: for an underlying wire between output pin `op` and input pin `qp`
(the model stores the link symmetrically on both endpoints, but only the
`op` side is output-direction), the extracted connections contain exactly
one document for the wire, and none oriented from the input side — the
mirrored input-side link record never produces a second document. -/
theorem connection_emitted_once_per_wire (g : EGraph) (op qp : String)
    (hne : op ≠ qp)
    (H1 : (pinEntries g).countP (fun e => e.2.pinId == op) = 1)
    (H2 : ∀ e ∈ pinEntries g, e.2.pinId = op →
      e.2.direction = PinDir.output ∧ e.2.linkedTo.countP (isRefTo qp) = 1)
    (H3 : ∀ e ∈ pinEntries g, e.2.pinId = qp →
      e.2.direction = PinDir.input) :
    (extractGraphData g).connections.countP (wireDocMatch op qp) = 1 ∧
    (extractGraphData g).connections.countP
      (fun c => c.fromPin == qp && c.toPin == op) = 0 := by
  have hc : (extractGraphData g).connections
      = (pinEntries g).flatMap (fun e => linkDocs e.1 e.2) :=
    graphConnections_eq g
  constructor
  · rw [hc, wire_count_flatMap op qp hne _ H2 H3, H1]
  · rw [hc]
    exact reverse_orientation_zero op qp _ H3

/-- C3 witness: the one-wire two-node graph `wireGraph` emits exactly one
connection document for its wire, oriented output→input. -/
theorem connection_emitted_once_per_wire_witness :
    (extractGraphData wireGraph).connections.countP (wireDocMatch "p1" "p2") = 1 ∧
    (extractGraphData wireGraph).connections.countP
      (fun c => c.fromPin == "p2" && c.toPin == "p1") = 0 :=
  connection_emitted_once_per_wire wireGraph "p1" "p2"
    (by decide) (by decide) (by decide) (by decide)

lemma mem_pinEntries {g : EGraph} {e : String × GPin} (h : e ∈ pinEntries g) :
    ∃ n : GNode, some n ∈ g.nodes ∧ e.1 = n.nodeGuid ∧ some e.2 ∈ n.pins := by
  unfold pinEntries at h
  rw [List.mem_flatMap] at h
  obtain ⟨n?, hn, he⟩ := h
  cases n? with
  | none => simp at he
  | some n =>
    rw [List.mem_filterMap] at he
    obtain ⟨p?, hp, hf⟩ := he
    cases p? with
    | none => simp at hf
    | some p =>
      simp only [Option.map_some'] at hf
      rw [Option.some_inj] at hf
      subst hf
      exact ⟨n, hn, rfl, hp⟩

lemma guid_mem_nodeIds {g : EGraph} {n : GNode} (hn : some n ∈ g.nodes) :
    n.nodeGuid ∈ nodeIds g := by
  simp only [nodeIds, extractGraphData]
  rw [List.mem_map]
  refine ⟨nodeDocOf n, ?_, rfl⟩
  rw [List.mem_filterMap]
  exact ⟨some n, hn, rfl⟩

/-- C4: in a graph whose link storage resolves within the graph (host-model
well-formedness), every emitted connection document's `from_node` and
`to_node` are ids of node documents in the same graph document. -/
theorem connections_referential_integrity (g : EGraph)
    (hWF : linksResolve g = true) :
    ∀ c ∈ (extractGraphData g).connections,
      c.fromNode ∈ nodeIds g ∧ c.toNode ∈ nodeIds g := by
  intro c hc
  have hch : (extractGraphData g).connections
      = (pinEntries g).flatMap (fun e => linkDocs e.1 e.2) :=
    graphConnections_eq g
  rw [hch, List.mem_flatMap] at hc
  obtain ⟨e, he, hce⟩ := hc
  obtain ⟨hfn, -, l, hl, hg, -⟩ := mem_linkDocs hce
  obtain ⟨n, hn, he1, -⟩ := mem_pinEntries he
  refine ⟨by rw [hfn, he1]; exact guid_mem_nodeIds hn, ?_⟩
  unfold linksResolve at hWF
  rw [List.all_eq_true] at hWF
  have h1 := hWF e he
  rw [List.all_eq_true] at h1
  have h2 := h1 (some l) hl
  simp only [hg] at h2
  exact of_decide_eq_true h2

/-- C4 witness: the single connection document of `wireGraph` references
node ids present in its nodes array. -/
theorem connections_referential_integrity_witness :
    ConnectionDoc.fromNode ⟨"A", "p1", "Out", "B", "p2", "In"⟩ ∈ nodeIds wireGraph ∧
    ConnectionDoc.toNode ⟨"A", "p1", "Out", "B", "p2", "In"⟩ ∈ nodeIds wireGraph :=
  connections_referential_integrity wireGraph (by decide)
    ⟨"A", "p1", "Out", "B", "p2", "In"⟩ (by decide)

lemma mem_functionGraphsSelected {bp : Blueprint} {ge : EGraph × GNode}
    (hge : ge ∈ functionGraphsSelected bp) :
    some ge.1 ∈ allGraphs bp ∧ isEventGraphOf bp ge.1 = false ∧
      findEntryNode ge.1 = some ge.2 := by
  unfold functionGraphsSelected at hge
  rw [List.mem_filterMap] at hge
  obtain ⟨g?, hmem, hf⟩ := hge
  cases g? with
  | none => simp at hf
  | some h =>
    by_cases hev : isEventGraphOf bp h
    · simp [hev] at hf
    · cases hE : findEntryNode h with
      | none => simp [hev, hE] at hf
      | some e =>
        simp only [hev, Bool.false_eq_true, if_false, hE] at hf
        rw [Option.some_inj] at hf
        subst hf
        exact ⟨hmem, by simpa using hev, hE⟩

lemma functionGraphsSelected_intro {bp : Blueprint} {g : EGraph} {e : GNode}
    (hg : some g ∈ allGraphs bp) (hev : isEventGraphOf bp g = false)
    (hE : findEntryNode g = some e) : (g, e) ∈ functionGraphsSelected bp := by
  unfold functionGraphsSelected
  rw [List.mem_filterMap]
  exact ⟨some g, hg, by simp [hev, hE]⟩

lemma isEventGraphOf_congr_objId (bp : Blueprint) {g h : EGraph}
    (hid : g.objId = h.objId) :
    isEventGraphOf bp g = isEventGraphOf bp h := by
  simp only [isEventGraphOf, hid]

/-- C2 counterexample: on a blueprint whose SCS is present and whose
function-graph list holds the `UserConstructionScript` graph (which carries
a function entry node), that graph is emitted both as a function and as the
construction script, so classification is not exclusive. -/
theorem construction_script_also_function_cex :
    ((extractFunctions exampleBlueprint).map FunctionDoc.name)
      = ["UserConstructionScript", "MyFunction"] ∧
    ((constructionScriptEntries exampleBlueprint).map EventGraphEntry.name)
      = ["UserConstructionScript"] ∧
    ((constructionScriptEntries exampleBlueprint).map EventGraphEntry.etype)
      = ["construction_script"] := by
  refine ⟨?_, rfl, rfl⟩
  rfl

/-- C2 amended: the function extractor partitions each owned graph into
event graph (matched by object identity against the ubergraph pages),
function (has an entry node), or ignored; a graph is selected as a function
iff it is not an event graph and has an entry node, and an event graph is
never selected as a function even if another graph shares its name — but
the construction-script emission is a separate pass, so the
`UserConstructionScript` function graph is emitted both as a function and
as the construction script. -/
theorem partition_event_function_disjoint (bp : Blueprint) (g : EGraph)
    (hg : some g ∈ allGraphs bp) :
    ((∃ e, (g, e) ∈ functionGraphsSelected bp) ↔
      (isEventGraphOf bp g = false ∧ (findEntryNode g).isSome = true)) ∧
    (isEventGraphOf bp g = true →
      ∀ ge ∈ functionGraphsSelected bp, ge.1.objId ≠ g.objId) := by
  constructor
  · constructor
    · rintro ⟨e, he⟩
      obtain ⟨-, hev, hE⟩ := mem_functionGraphsSelected he
      exact ⟨hev, by rw [hE]; rfl⟩
    · rintro ⟨hev, hE⟩
      cases hEn : findEntryNode g with
      | none => rw [hEn] at hE; simp at hE
      | some e => exact ⟨e, functionGraphsSelected_intro hg hev hEn⟩
  · intro hev ge hge heq
    obtain ⟨-, hevf, -⟩ := mem_functionGraphsSelected hge
    rw [isEventGraphOf_congr_objId bp heq, hev] at hevf
    exact absurd hevf (by simp)

/-- C2 witness: the amended partition theorem applied to the
`UserConstructionScript` graph of the example blueprint. -/
theorem partition_event_function_disjoint_witness :
    ((∃ e, (ucsGraph, e) ∈ functionGraphsSelected exampleBlueprint) ↔
      (isEventGraphOf exampleBlueprint ucsGraph = false ∧
        (findEntryNode ucsGraph).isSome = true)) ∧
    (isEventGraphOf exampleBlueprint ucsGraph = true →
      ∀ ge ∈ functionGraphsSelected exampleBlueprint,
        ge.1.objId ≠ ucsGraph.objId) :=
  partition_event_function_disjoint exampleBlueprint ucsGraph (by decide)

lemma allLifetimeConditions_complete :
    ∀ c : ELifetimeCondition, c ∈ allLifetimeConditions := by
  intro c
  cases c <;> decide

/-- C5 counterexample: the replication-condition switch names 13 distinct
conditions (not 12); every named output is distinct and differs from the
`"None"` fallback. -/
theorem repCondition_table_size_cex :
    (allLifetimeConditions.countP (fun c => repConditionName c != "None")) = 13 ∧
    ((allLifetimeConditions.filter
        (fun c => repConditionName c != "None")).map repConditionName).Nodup ∧
    ¬ ((allLifetimeConditions.countP
        (fun c => repConditionName c != "None")) = 12) :=
  ⟨by decide, by decide, by decide⟩

/-- C5 amended: replication is `"None"` when the `CPF_Net` flag is unset
(and then neither `rep_notify_function` nor `replication_condition` is
emitted), `"Replicated"` when set without a notify function, and
`"RepNotify"` when set with one (which is then emitted); the condition is
emitted exactly when the flag is set, mapped through the fixed table of 13
named conditions with every unnamed value falling back to `"None"`. -/
theorem variable_replication_classification (v : VarDesc) :
    ((v.propertyFlags &&& CPF_Net = 0) →
      ((extractVariable v).replication = "None" ∧
       (extractVariable v).repNotifyFunction = none ∧
       (extractVariable v).replicationCondition = none)) ∧
    ((v.propertyFlags &&& CPF_Net ≠ 0) → v.repNotifyFunc = none →
      ((extractVariable v).replication = "Replicated" ∧
       (extractVariable v).repNotifyFunction = none ∧
       (extractVariable v).replicationCondition
         = some (repConditionName v.replicationCondition))) ∧
    (∀ f : String, (v.propertyFlags &&& CPF_Net ≠ 0) → v.repNotifyFunc = some f →
      ((extractVariable v).replication = "RepNotify" ∧
       (extractVariable v).repNotifyFunction = some f ∧
       (extractVariable v).replicationCondition
         = some (repConditionName v.replicationCondition))) := by
  refine ⟨fun h0 => ?_, fun hn hf => ?_, fun f hn hf => ?_⟩
  · simp [extractVariable, h0]
  · simp [extractVariable, bne_iff_ne, hn, hf]
  · simp [extractVariable, bne_iff_ne, hn, hf]

/-- C5 witness: the replicated variable fixture (flag set, notify function
present, `OwnerOnly` condition) is classified `RepNotify` and carries the
named condition. -/
theorem variable_replication_classification_witness :
    (extractVariable exampleRepVar).replication = "RepNotify" ∧
    (extractVariable exampleRepVar).repNotifyFunction = some "OnRep_Health" ∧
    (extractVariable exampleRepVar).replicationCondition = some "OwnerOnly" := by
  have h := (variable_replication_classification exampleRepVar).2.2
    "OnRep_Health" (by decide) rfl
  exact ⟨h.1, h.2.1, h.2.2.trans rfl⟩

lemma filterMap_pins_eq {β : Type} (f : GPin → β) (q : GPin → Bool)
    (l : List (Option GPin)) :
    l.filterMap (fun p? =>
      match p? with
      | none => none
      | some p => if q p then some (f p) else none)
    = ((l.filterMap id).filter q).map f := by
  induction l with
  | nil => rfl
  | cons p? t ih =>
    cases p? with
    | none => simpa using ih
    | some p =>
      by_cases hq : q p
      · simp [List.filterMap_cons, List.filter_cons, hq, ih]
      · simp [List.filterMap_cons, List.filter_cons, hq, ih]

/-- C6: for a non-event graph with an entry node and a (first) result node,
the extracted function document's inputs are exactly the entry node's
output-direction non-exec pins, its outputs are exactly the first result
node's input-direction non-exec pins, and its local variables come exactly
from the entry node's attached list. -/
theorem function_signature_extraction (bp : Blueprint) (g : EGraph)
    (e r : GNode)
    (hg : some g ∈ allGraphs bp)
    (hev : isEventGraphOf bp g = false)
    (hE : findEntryNode g = some e)
    (hR : findResultNode g = some r) :
    functionDocOf g e ∈ extractFunctions bp ∧
    (functionDocOf g e).name = g.name ∧
    (functionDocOf g e).inputs
      = ((e.pins.filterMap id).filter
          (fun p : GPin => p.direction = PinDir.output && p.pinCategory != PC_Exec)).map
            inputParamDocOf ∧
    (functionDocOf g e).outputs
      = ((r.pins.filterMap id).filter
          (fun p : GPin => p.direction = PinDir.input && p.pinCategory != PC_Exec)).map
            outputParamDocOf ∧
    (functionDocOf g e).localVariables = e.localVariables.map localVarDocOf := by
  refine ⟨?_, rfl, ?_, ?_, rfl⟩
  · unfold extractFunctions
    rw [List.mem_map]
    exact ⟨(g, e), functionGraphsSelected_intro hg hev hE, rfl⟩
  · exact filterMap_pins_eq _ _ _
  · show (match findResultNode g with
      | none => ([] : List ParamDoc)
      | some r => r.pins.filterMap (fun p? : Option GPin =>
          match p? with
          | none => none
          | some p =>
            if p.direction = PinDir.input && p.pinCategory != PC_Exec then
              some (outputParamDocOf p)
            else none)) = _
    rw [hR]
    exact filterMap_pins_eq _ _ _

/-- C6 witness: the signature theorem applied to the two-input one-output
zero-local fixture graph; the scenario lengths 2 / 1 / 0 follow. -/
theorem function_signature_extraction_witness :
    (functionDocOf funcGraph entryNodeEx ∈ extractFunctions exampleBlueprint ∧
     (functionDocOf funcGraph entryNodeEx).name = funcGraph.name ∧
     (functionDocOf funcGraph entryNodeEx).inputs
       = ((entryNodeEx.pins.filterMap id).filter
           (fun p : GPin => p.direction = PinDir.output && p.pinCategory != PC_Exec)).map
             inputParamDocOf ∧
     (functionDocOf funcGraph entryNodeEx).outputs
       = ((resultNodeEx.pins.filterMap id).filter
           (fun p : GPin => p.direction = PinDir.input && p.pinCategory != PC_Exec)).map
             outputParamDocOf ∧
     (functionDocOf funcGraph entryNodeEx).localVariables
       = entryNodeEx.localVariables.map localVarDocOf) ∧
    (functionDocOf funcGraph entryNodeEx).inputs.length = 2 ∧
    (functionDocOf funcGraph entryNodeEx).outputs.length = 1 ∧
    (functionDocOf funcGraph entryNodeEx).localVariables.length = 0 :=
  ⟨function_signature_extraction exampleBlueprint funcGraph entryNodeEx
      resultNodeEx (by decide) (by decide) (by decide) (by decide),
   by decide, by decide, by decide⟩

/-- C7 counterexample: on an SCS whose only component declares parent
`"Ghost"`, the emitted `parent_component` is `"Ghost"`, which is neither
the sentinel `"None"` nor the name of any other component document. -/
theorem component_parent_dangling_cex :
    (extractComponentsFrom danglingParentSCS).map ComponentDoc.parentComponent
      = ["Ghost"] ∧
    (extractComponentsFrom danglingParentSCS).map ComponentDoc.name
      = ["Child"] ∧
    ("Ghost" : String) ≠ "None" ∧ ("Ghost" : String) ≠ "Child" :=
  ⟨rfl, rfl, by decide, by decide⟩

/-- C7 amended: every emitted component document comes from a non-null SCS
node with a non-null template; its `parent_component` is the sentinel
`"None"` exactly when the node's parent name is unset and otherwise the
verbatim declared parent name — with no referential-integrity or cycle
check against the other component documents. -/
theorem component_parent_backreference (ns : List (Option SCSNode)) :
    ∀ d ∈ extractComponentsFrom ns,
      ∃ n : SCSNode, ∃ t : CompTemplate, some n ∈ ns ∧
        n.componentTemplate = some t ∧
        d.name = n.variableName ∧ d.ctype = t.className ∧
        ((n.parentComponentOrVariableName = none ∧ d.parentComponent = "None") ∨
         (∃ p : String, n.parentComponentOrVariableName = some p ∧
            d.parentComponent = p)) := by
  intro d hd
  unfold extractComponentsFrom at hd
  rw [List.mem_filterMap] at hd
  obtain ⟨n?, hn, hf⟩ := hd
  cases n? with
  | none => simp at hf
  | some n =>
    cases ht : n.componentTemplate with
    | none => simp [ht] at hf
    | some t =>
      simp only [ht] at hf
      rw [Option.some_inj] at hf
      subst hf
      refine ⟨n, t, hn, ht, rfl, rfl, ?_⟩
      cases hp : n.parentComponentOrVariableName with
      | none => exact Or.inl ⟨rfl, by simp [hp]⟩
      | some p => exact Or.inr ⟨p, rfl, by simp [hp]⟩

/-- C7 witness: the back-reference theorem applied to the dangling-parent
fixture and its single emitted document. -/
theorem component_parent_backreference_witness :
    ∃ n : SCSNode, ∃ t : CompTemplate, some n ∈ danglingParentSCS ∧
      n.componentTemplate = some t ∧
      ComponentDoc.name ⟨"Child", "SceneComponent", "Ghost"⟩ = n.variableName ∧
      ComponentDoc.ctype ⟨"Child", "SceneComponent", "Ghost"⟩ = t.className ∧
      ((n.parentComponentOrVariableName = none ∧
        ComponentDoc.parentComponent ⟨"Child", "SceneComponent", "Ghost"⟩ = "None") ∨
       (∃ p : String, n.parentComponentOrVariableName = some p ∧
        ComponentDoc.parentComponent ⟨"Child", "SceneComponent", "Ghost"⟩ = p)) :=
  component_parent_backreference danglingParentSCS
    ⟨"Child", "SceneComponent", "Ghost"⟩ (by decide)

/-- C8: when the request names a blueprint the lookup collaborator cannot
resolve, the handler returns the error response whose message contains the
requested name, `success` is false, and no `blueprint_info` key is present. -/
theorem lookup_failure_error_response (find : String → Option Blueprint)
    (params : List (String × PVal)) (name : String)
    (hname : tryGetStringField params "blueprint_name" = some name)
    (hfind : find name = none) :
    (handleGetBlueprintData find params).1
      = BPResponse.errorResp ("Blueprint not found: " ++ name) ∧
    responseSuccess (handleGetBlueprintData find params).1 = false ∧
    (∃ pre suf : String,
      "Blueprint not found: " ++ name = pre ++ name ++ suf) ∧
    "blueprint_info" ∉ responseKeys (handleGetBlueprintData find params).1 := by
  have h : (handleGetBlueprintData find params).1
      = BPResponse.errorResp ("Blueprint not found: " ++ name) := by
    unfold handleGetBlueprintData
    rw [hname]
    show (match find name with
      | none => (BPResponse.errorResp ("Blueprint not found: " ++ name), true)
      | some bp => (BPResponse.okResp (assembleDoc bp), true)).1
      = BPResponse.errorResp ("Blueprint not found: " ++ name)
    rw [hfind]
  refine ⟨h, by rw [h]; rfl, ⟨"Blueprint not found: ", "", by simp⟩, ?_⟩
  rw [h]
  simp [responseKeys]

/-- C8 witness: a lookup that resolves nothing, applied to a request naming
`Missing_BP`. -/
theorem lookup_failure_error_response_witness :
    ((handleGetBlueprintData (fun _ => none)
        [("blueprint_name", PVal.pstr "Missing_BP")]).1
      = BPResponse.errorResp ("Blueprint not found: " ++ "Missing_BP")) ∧
    responseSuccess (handleGetBlueprintData (fun _ => none)
        [("blueprint_name", PVal.pstr "Missing_BP")]).1 = false ∧
    (∃ pre suf : String,
      "Blueprint not found: " ++ "Missing_BP" = pre ++ "Missing_BP" ++ suf) ∧
    "blueprint_info" ∉ responseKeys (handleGetBlueprintData (fun _ => none)
        [("blueprint_name", PVal.pstr "Missing_BP")]).1 :=
  lookup_failure_error_response (fun _ => none)
    [("blueprint_name", PVal.pstr "Missing_BP")] "Missing_BP" rfl rfl

lemma mem_uberGraphEntries_etype {bp : Blueprint} {ent : EventGraphEntry}
    (h : ent ∈ uberGraphEntries bp) : ent.etype = "event_graph" := by
  unfold uberGraphEntries at h
  rw [List.mem_filterMap] at h
  obtain ⟨g?, -, hf⟩ := h
  cases g? with
  | none => simp at hf
  | some g =>
    simp only [Option.map_some'] at hf
    rw [Option.some_inj] at hf
    subst hf
    rfl

lemma uberGraphEntries_cs_count (bp : Blueprint) :
    (uberGraphEntries bp).countP (fun e => e.etype == "construction_script")
      = 0 := by
  rw [List.countP_eq_zero]
  intro ent hent
  rw [mem_uberGraphEntries_etype hent]
  decide

lemma constructionScriptEntries_count (bp : Blueprint) :
    (constructionScriptEntries bp).countP
        (fun e => e.etype == "construction_script")
      = if bp.simpleConstructionScript.isSome &&
           (findUCSGraph bp.functionGraphs).isSome then 1 else 0 := by
  unfold constructionScriptEntries
  cases hscs : bp.simpleConstructionScript with
  | none => simp
  | some l =>
    cases hucs : findUCSGraph bp.functionGraphs with
    | none => simp
    | some g => simp [List.countP_cons]

/-- C9: at most one construction-script entry is appended to
`event_graphs`; exactly one appears iff the SCS pointer is non-null and
some non-null function graph is named `UserConstructionScript`; and any
construction-script entry carries that name and the graph data of the first
such function graph in list order. -/
theorem construction_script_emission (bp : Blueprint) :
    ((eventGraphsArray bp).countP (fun e => e.etype == "construction_script")
      = if bp.simpleConstructionScript.isSome &&
           (findUCSGraph bp.functionGraphs).isSome then 1 else 0) ∧
    ((eventGraphsArray bp).countP
        (fun e => e.etype == "construction_script") ≤ 1) ∧
    (∀ ent ∈ eventGraphsArray bp, ent.etype = "construction_script" →
      ent.name = "UserConstructionScript" ∧
      ∃ g : EGraph, findUCSGraph bp.functionGraphs = some g ∧
        ent.graphData = extractGraphData g) := by
  have hcount : (eventGraphsArray bp).countP
      (fun e => e.etype == "construction_script")
      = if bp.simpleConstructionScript.isSome &&
           (findUCSGraph bp.functionGraphs).isSome then 1 else 0 := by
    unfold eventGraphsArray
    rw [List.countP_append, uberGraphEntries_cs_count,
        constructionScriptEntries_count, Nat.zero_add]
  refine ⟨hcount, by rw [hcount]; split <;> omega, ?_⟩
  intro ent hent hcs
  unfold eventGraphsArray at hent
  rw [List.mem_append] at hent
  cases hent with
  | inl hu =>
    rw [mem_uberGraphEntries_etype hu] at hcs
    simp at hcs
  | inr hc =>
    unfold constructionScriptEntries at hc
    cases hscs : bp.simpleConstructionScript with
    | none => rw [hscs] at hc; simp at hc
    | some l =>
      rw [hscs] at hc
      cases hucs : findUCSGraph bp.functionGraphs with
      | none => rw [hucs] at hc; simp at hc
      | some g =>
        rw [hucs] at hc
        rw [List.mem_singleton] at hc
        subst hc
        exact ⟨rfl, g, rfl, rfl⟩

/-- C9 witness: on the example blueprint (SCS present, first matching
function graph `ucsGraph`), the construction-script entry carries the
reserved name and `ucsGraph`'s extracted data. -/
theorem construction_script_emission_witness :
    EventGraphEntry.name ⟨"UserConstructionScript", "construction_script",
        extractGraphData ucsGraph⟩ = "UserConstructionScript" ∧
    ∃ g : EGraph, findUCSGraph exampleBlueprint.functionGraphs = some g ∧
      EventGraphEntry.graphData ⟨"UserConstructionScript", "construction_script",
        extractGraphData ucsGraph⟩ = extractGraphData g :=
  (construction_script_emission exampleBlueprint).2.2
    ⟨"UserConstructionScript", "construction_script", extractGraphData ucsGraph⟩
    (by decide) rfl

/-- C10: when the request object lacks a string field `blueprint_name`, the
handler returns the fixed missing-parameter error without invoking the
lookup collaborator (instrumentation component `false`), and no
`blueprint_info` key is present. -/
theorem missing_blueprint_name_error (find : String → Option Blueprint)
    (params : List (String × PVal))
    (h : tryGetStringField params "blueprint_name" = none) :
    handleGetBlueprintData find params
      = (BPResponse.errorResp "Missing 'blueprint_name' parameter", false) ∧
    "blueprint_info" ∉ responseKeys (handleGetBlueprintData find params).1 := by
  have h1 : handleGetBlueprintData find params
      = (BPResponse.errorResp "Missing 'blueprint_name' parameter", false) := by
    unfold handleGetBlueprintData
    rw [h]
  refine ⟨h1, ?_⟩
  rw [h1]
  simp [responseKeys]

/-- C10 witness: a request whose only field is not `blueprint_name`, with a
lookup that would succeed — the handler still returns the fixed error and
never consults the lookup. -/
theorem missing_blueprint_name_error_witness :
    handleGetBlueprintData (fun _ => some exampleBlueprint)
        [("name", PVal.pstr "BP_Example")]
      = (BPResponse.errorResp "Missing 'blueprint_name' parameter", false) ∧
    "blueprint_info" ∉ responseKeys (handleGetBlueprintData
        (fun _ => some exampleBlueprint) [("name", PVal.pstr "BP_Example")]).1 :=
  missing_blueprint_name_error (fun _ => some exampleBlueprint)
    [("name", PVal.pstr "BP_Example")] rfl
